import Mathlib

/-!
Shallow embedding of `src/rust/src/android/android_platform.rs` (the Android
JNI platform adapter of ringrtc) and proofs about its adapter operations.

The JNI environment and the host (Java) side are modelled as an oracle
(`EnvModel`): each fallible JNI primitive consults a field of the oracle.
Each adapter operation is translated statement by statement from the Rust
source; it returns the ordered list of host method invocations it attempted
(`Attempt`) together with an `Except AndroidError` result mirroring the
Rust `Result`.
-/

namespace RingRTC

/-- Reinterpretation of a `u64` value as a Java `jlong` (`i64`), as performed
by `u64::from(call_id) as jlong` in the source: bit-identical, i.e. the
two's-complement value congruent to the input modulo 2^64. -/
def u64_as_jlong (n : Nat) : Int :=
  if n < 2 ^ 63 then (n : Int) else (n : Int) - 2 ^ 64

/-- Reinterpretation of a `u32` value as a Java `jint` (`i32`), as performed
by `remote_device as jint` in the source. -/
def u32_as_jint (n : Nat) : Int :=
  if n < 2 ^ 31 then (n : Int) else (n : Int) - 2 ^ 32

mutual

/-- Reference to a Java object as seen across the JNI boundary. -/
inductive JObjRef where
  | null : JObjRef
  | jstring (s : String) : JObjRef
  | jobject (id : Nat) : JObjRef
  | newObj (cls : String) (args : List JValue) : JObjRef
  | linkedList (elems : List JObjRef) : JObjRef

/-- Java value crossing the JNI boundary (`jni::objects::JValue`). -/
inductive JValue where
  | long (v : Int) : JValue
  | int (v : Int) : JValue
  | boolean (b : Bool) : JValue
  | object (o : JObjRef) : JValue

end

/-- Conversion `JValue::l()` of the jni crate: extract an object, failing on
any other value kind. -/
def JValue.l : JValue → Except Unit JObjRef
  | .object o => .ok o
  | _ => .error ()

/-- Conversion `JValue::z()` of the jni crate: extract a boolean. -/
def JValue.z : JValue → Except Unit Bool
  | .boolean b => .ok b
  | _ => .error ()

/-- Test `(*jni_connection).is_null()` on a Java object reference. -/
def JObjRef.is_null : JObjRef → Bool
  | .null => true
  | _ => false

/-- Errors of the adapter. Constructors mirror the `AndroidError` variants
used by `android_platform.rs` (`CreateJniConnection`, `JniCallStaticMethod`,
`ClassNotFound`) together with distinct constructors for each fallible JNI or
collaborator step whose error the source propagates with `?`. -/
inductive AndroidError where
  | CreateJniConnection
  | JniCallStaticMethod (class_path method sig : String)
  | ClassNotFound (class_path : String)
  | JniCallMethod (method sig : String)
  | AttachCurrentThread
  | NewString
  | NewObject
  | NewLinkedList
  | ListAdd
  | NewGlobalRef
  | GetJavaVm
  | ValueConversion
  | ConnectionNew
  | GetConnectionPtr
  | CallContextUnavailable
  | SetAppConnection
  | MediaStreamCreate
  | MediaStreamGlobalRef
deriving DecidableEq

/-- Record of one attempted boundary-crossing invocation of a host method. -/
inductive Attempt where
  | callMethod (recv : JObjRef) (method sig : String) (args : List JValue)
  | callStaticMethod (cls method sig : String) (args : List JValue)

/-- Oracle describing the behaviour of the host runtime as reachable through
one `JNIEnv`: outcomes of method calls, static calls, and of each fallible
JNI primitive the adapter uses. -/
structure EnvModel where
  call_method : JObjRef → String → String → List JValue → Except Unit JValue
  call_static_method : String → String → String → List JValue → Except Unit JValue
  new_string_ok : String → Bool
  new_object_ok : Bool
  new_linked_list_ok : Bool
  list_add_ok : Bool
  new_global_ref_ok : Bool
  find_class_ok : String → Bool
  get_java_vm_ok : Bool

/-- The view of the process-wide `JavaVM` from one native thread:
`get_env` is the thread's current binding (`None` when the thread is not
attached), `attach_as_daemon` the outcome of
`attach_current_thread_as_daemon` on that thread. -/
structure Jvm where
  get_env : Option EnvModel
  attach_as_daemon : Except Unit EnvModel

/-- Method `JavaVM::attach_current_thread_as_daemon` of the jni crate:
attaches the current thread as a daemon, yielding its environment. -/
def Jvm.attach_current_thread_as_daemon (jvm : Jvm) : Except AndroidError EnvModel :=
  match jvm.attach_as_daemon with
  | .ok v => .ok v
  | .error _ => .error .AttachCurrentThread

/-- Modelled from the spec: `ClassCache` of `jni_util.rs` (not under `src/`):
a mapping from fully qualified class name to a resolved class descriptor,
populated by `add_class` and queried by `get_class`; a lookup miss is a hard
error. -/
structure ClassCache where
  entries : List String

/-- Resolved Java class descriptor. -/
structure JClass where
  name : String

def ClassCache.new : ClassCache := { entries := [] }

/-- Modelled from the spec: `ClassCache::add_class` resolves the named class
via the environment and stores it; resolution failure is an error. -/
def ClassCache.add_class (c : ClassCache) (env : EnvModel) (class_path : String) :
    Except AndroidError ClassCache :=
  if env.find_class_ok class_path then
    .ok { entries := c.entries ++ [class_path] }
  else
    .error (.ClassNotFound class_path)

/-- Modelled from the spec: `ClassCache::get_class` looks the name up in the
cache; a miss is an error, never silently ignored. -/
def ClassCache.get_class (c : ClassCache) (class_path : String) :
    Except AndroidError JClass :=
  if c.entries.contains class_path then
    .ok { name := class_path }
  else
    .error (.ClassNotFound class_path)

/-- Android implementation of `platform::Platform` (struct `AndroidPlatform`). -/
structure AndroidPlatform where
  jvm : Jvm
  jni_call_manager : JObjRef
  class_cache : ClassCache

def RINGRTC_PACKAGE : String := "org/signal/ringrtc"

def CALL_MANAGER_CLASS : String := "CallManager"

def ICE_CANDIDATE_CLASS : String := "org/webrtc/IceCandidate"

/-- Method `AndroidPlatform::java_env`: reuse the thread's current JNI
binding when one exists, otherwise attach the current thread as a daemon. -/
def AndroidPlatform.java_env (p : AndroidPlatform) : Except AndroidError EnvModel :=
  match p.jvm.get_env with
  | some v => .ok v
  | none => p.jvm.attach_current_thread_as_daemon

/-- Method `AndroidPlatform::try_clone`: obtains an environment, re-fetches
the `JavaVM` from it and shares the call-manager reference and class cache. -/
def AndroidPlatform.try_clone (p : AndroidPlatform) : Except AndroidError AndroidPlatform :=
  match p.java_env with
  | .error e => .error e
  | .ok env =>
    if env.get_java_vm_ok then
      .ok { jvm := p.jvm, jni_call_manager := p.jni_call_manager, class_cache := p.class_cache }
    else
      .error .GetJavaVm

/-- Constructor `AndroidPlatform::new`: populates the class cache with the
two classes needed at runtime, then captures the `JavaVM`. -/
def AndroidPlatform.new (env : EnvModel) (jvm : Jvm) (jni_call_manager : JObjRef) :
    Except AndroidError AndroidPlatform :=
  let classes := ["org/signal/ringrtc/CallManager$CallEvent", ICE_CANDIDATE_CLASS]
  match classes.foldlM (fun cc cls => cc.add_class env cls) ClassCache.new with
  | .error e => .error e
  | .ok class_cache =>
    if env.get_java_vm_ok then
      .ok { jvm := jvm, jni_call_manager := jni_call_manager, class_cache := class_cache }
    else
      .error .GetJavaVm

/-- Modelled from the spec: `jni_call_method` of `jni_util.rs` (not under
`src/`): invokes the named host method with the given arguments and surfaces
a host-side failure as an error. -/
def jni_call_method (env : EnvModel) (recv : JObjRef) (method sig : String)
    (args : List JValue) : Except AndroidError JValue :=
  match env.call_method recv method sig args with
  | .ok v => .ok v
  | .error _ => .error (.JniCallMethod method sig)

/-- Primitive `JNIEnv::new_string`: marshal a Rust string into a host string. -/
def new_string (env : EnvModel) (s : String) : Except AndroidError JObjRef :=
  if env.new_string_ok s then .ok (.jstring s) else .error .NewString

/-- Primitive `JNIEnv::new_object`: construct a host object of the given
class with the given constructor arguments. -/
def new_object (env : EnvModel) (cls : JClass) (args : List JValue) :
    Except AndroidError JObjRef :=
  if env.new_object_ok then .ok (.newObj cls.name args) else .error .NewObject

/-- Primitive `JNIEnv::new_global_ref`: promote a local reference. -/
def new_global_ref (env : EnvModel) (o : JObjRef) : Except AndroidError JObjRef :=
  if env.new_global_ref_ok then .ok o else .error .NewGlobalRef

/-- Modelled from the spec: `jni_new_linked_list` of `jni_util.rs` (not under
`src/`): create an empty host `LinkedList`. -/
def jni_new_linked_list (env : EnvModel) : Except AndroidError (List JObjRef) :=
  if env.new_linked_list_ok then .ok [] else .error .NewLinkedList

/-- The `add` operation of the host `LinkedList`: appends one element. -/
def list_add (env : EnvModel) (l : List JObjRef) (o : JObjRef) :
    Except AndroidError (List JObjRef) :=
  if env.list_add_ok then .ok (l ++ [o]) else .error .ListAdd

end RingRTC

namespace RingRTC

/-- Call direction (`common::CallDirection`), as matched by the source:
variants `OutGoing` and `InComing`. -/
inductive CallDirection where
  | OutGoing
  | InComing
deriving DecidableEq

/-- Modelled from the spec: the native application-event enum
(`common::ApplicationEvent`, not under `src/`); `native_index` is the integer
discriminant used by the cast `event as i32` in `on_event`. -/
structure ApplicationEvent where
  native_index : Int

/-- Connection identifier (`common::ConnectionId`, not under `src/`): the
composite of a 64-bit call id and a device id, each recoverable. -/
structure ConnectionId where
  call_id : Nat
  remote_device : Nat

/-- ICE candidate as received from the native engine
(`webrtc::ice_candidate::IceCandidate`): the fields read by
`on_send_ice_candidates`. -/
structure IceCandidate where
  sdp_mid : String
  sdp_mline_index : Int
  sdp : String

/-- Inner structure `JavaCallContext`: the platform binding paired with the
owned Java `CallContext` global reference. -/
structure JavaCallContext where
  platform : AndroidPlatform
  jni_call_context : JObjRef

/-- Reference-counted wrapper `AndroidCallContext` over `JavaCallContext`. -/
structure AndroidCallContext where
  inner : JavaCallContext

def AndroidCallContext.new (platform : AndroidPlatform) (jni_call_context : JObjRef) :
    AndroidCallContext :=
  { inner := { platform := platform, jni_call_context := jni_call_context } }

def AndroidCallContext.to_jni (self : AndroidCallContext) : JObjRef :=
  self.inner.jni_call_context

/-- Inner structure `JavaConnection`: the platform binding paired with the
owned Java `Connection` global reference. -/
structure JavaConnection where
  platform : AndroidPlatform
  jni_connection : JObjRef

/-- Reference-counted wrapper `AndroidConnection` over `JavaConnection`. -/
structure AndroidConnection where
  inner : JavaConnection

def AndroidConnection.new (platform : AndroidPlatform) (jni_connection : JObjRef) :
    AndroidConnection :=
  { inner := { platform := platform, jni_connection := jni_connection } }

def AndroidConnection.to_jni (self : AndroidConnection) : JObjRef :=
  self.inner.jni_connection

/-- Modelled from the spec: the native `core::call::Call` collaborator (not
under `src/`), reduced to the two accessors `create_connection` reads:
`call_id()` and the fallible `call_context()`. -/
structure Call where
  call_id : Nat
  call_context : Except Unit AndroidCallContext

/-- Modelled from the spec: outcomes of the `core::connection::Connection`
collaborator steps used by `create_connection` (not under `src/`):
`Connection::new`, `get_connection_ptr` and `set_app_connection`. -/
structure CoreOracle where
  connection_new_ok : Bool
  connection_ptr : Except Unit Nat
  set_app_connection_ok : Bool

/-- Result of a successful `create_connection`: the native connection now
carrying its attached `AndroidConnection` app handle. -/
structure Connection where
  connection_ptr : Nat
  app_connection : Option AndroidConnection

/-- Modelled from the spec: `JavaMediaStream` (webrtc glue, not under
`src/`), reduced to the fallible `global_ref` accessor used by
`on_connect_media`. -/
structure JavaMediaStream where
  stream_ref : JObjRef
  global_ref_ok : Bool

/-- Accessor `JavaMediaStream::global_ref`. -/
def JavaMediaStream.global_ref (self : JavaMediaStream) :
    Except AndroidError JObjRef :=
  if self.global_ref_ok then .ok self.stream_ref else .error .MediaStreamGlobalRef

end RingRTC

namespace RingRTC

def CREATE_CONNECTION_METHOD : String := "createConnection"

def CREATE_CONNECTION_SIG : String :=
  "(JJILorg/signal/ringrtc/CallManager$CallContext;)Lorg/signal/ringrtc/Connection;"

/-- Operation `Platform::create_connection` for `AndroidPlatform`: asks the
host to materialize a `Connection` object, fails with the distinct
`CreateJniConnection` error when the host returns a null object, and
otherwise wraps the result in an `AndroidConnection` and attaches it. -/
def create_connection (p : AndroidPlatform) (oracle : CoreOracle) (call : Call)
    (remote_device : Nat) : List Attempt × Except AndroidError Connection :=
  if oracle.connection_new_ok then
    match oracle.connection_ptr with
    | .error _ => ([], .error .GetConnectionPtr)
    | .ok connection_ptr =>
      let call_id_jlong := u64_as_jlong call.call_id
      let jni_remote_device := u32_as_jint remote_device
      match p.java_env with
      | .error e => ([], .error e)
      | .ok env =>
        match call.call_context with
        | .error _ => ([], .error .CallContextUnavailable)
        | .ok android_call_context =>
          let jni_call_context := android_call_context.to_jni
          let args := [JValue.long (u64_as_jlong connection_ptr), JValue.long call_id_jlong,
                       JValue.int jni_remote_device, JValue.object jni_call_context]
          let a := Attempt.callMethod p.jni_call_manager CREATE_CONNECTION_METHOD
                     CREATE_CONNECTION_SIG args
          match env.call_method p.jni_call_manager CREATE_CONNECTION_METHOD
              CREATE_CONNECTION_SIG args with
          | .error _ => ([a], .error (.JniCallMethod CREATE_CONNECTION_METHOD CREATE_CONNECTION_SIG))
          | .ok result =>
            match result.l with
            | .error _ => ([a], .error .ValueConversion)
            | .ok jni_connection =>
              if jni_connection.is_null then
                ([a], .error .CreateJniConnection)
              else
                match new_global_ref env jni_connection with
                | .error e => ([a], .error e)
                | .ok jni_connection =>
                  match p.try_clone with
                  | .error e => ([a], .error e)
                  | .ok platform =>
                    let android_connection := AndroidConnection.new platform jni_connection
                    if oracle.set_app_connection_ok then
                      ([a], .ok { connection_ptr := connection_ptr,
                                  app_connection := some android_connection })
                    else
                      ([a], .error .SetAppConnection)
  else ([], .error .ConnectionNew)

def START_CALL_METHOD : String := "onStartCall"

def START_CALL_SIG : String := "(Lorg/signal/ringrtc/Remote;JZ)V"

/-- Operation `Platform::on_start_call` for `AndroidPlatform`. -/
def on_start_call (p : AndroidPlatform) (remote_peer : JObjRef) (call_id : Nat)
    (direction : CallDirection) : List Attempt × Except AndroidError Unit :=
  match p.java_env with
  | .error e => ([], .error e)
  | .ok env =>
    let jni_remote := remote_peer
    let jni_call_manager := p.jni_call_manager
    let call_id_jlong := u64_as_jlong call_id
    let is_outgoing :=
      match direction with
      | CallDirection.OutGoing => true
      | CallDirection.InComing => false
    let args := [JValue.object jni_remote, JValue.long call_id_jlong,
                 JValue.boolean is_outgoing]
    let a := Attempt.callMethod jni_call_manager START_CALL_METHOD START_CALL_SIG args
    match env.call_method jni_call_manager START_CALL_METHOD START_CALL_SIG args with
    | .error _ => ([a], .error (.JniCallMethod START_CALL_METHOD START_CALL_SIG))
    | .ok _ => ([a], .ok ())

def ENUM_FROM_NATIVE_INDEX_METHOD : String := "fromNativeIndex"

def ON_EVENT_METHOD : String := "onEvent"

def ON_EVENT_SIG : String :=
  "(Lorg/signal/ringrtc/Remote;Lorg/signal/ringrtc/CallManager$CallEvent;)V"

/-- Operation `Platform::on_event` for `AndroidPlatform`: converts the native
enum value to the host enum via the static `fromNativeIndex` ordinal lookup,
reporting a lookup failure as a `JniCallStaticMethod` error naming the class
path and method, then notifies the host with `onEvent`. -/
def on_event (p : AndroidPlatform) (remote_peer : JObjRef) (event : ApplicationEvent) :
    List Attempt × Except AndroidError Unit :=
  match p.java_env with
  | .error e => ([], .error e)
  | .ok env =>
    let jni_remote := remote_peer
    let cls := "CallEvent"
    let class_path := RINGRTC_PACKAGE ++ "/" ++ CALL_MANAGER_CLASS ++ "$" ++ cls
    match p.class_cache.get_class class_path with
    | .error e => ([], .error e)
    | .ok class_object =>
      let method_signature := "(I)L" ++ class_path ++ ";"
      let args := [JValue.int event.native_index]
      let sa := Attempt.callStaticMethod class_object.name ENUM_FROM_NATIVE_INDEX_METHOD
                  method_signature args
      match env.call_static_method class_object.name ENUM_FROM_NATIVE_INDEX_METHOD
          method_signature args with
      | .error _ =>
        ([sa], .error (.JniCallStaticMethod class_path ENUM_FROM_NATIVE_INDEX_METHOD
                        method_signature))
      | .ok v =>
        match v.l with
        | .error _ => ([sa], .error .ValueConversion)
        | .ok jni_enum =>
          let args2 := [JValue.object jni_remote, JValue.object jni_enum]
          let a := Attempt.callMethod p.jni_call_manager ON_EVENT_METHOD ON_EVENT_SIG args2
          match env.call_method p.jni_call_manager ON_EVENT_METHOD ON_EVENT_SIG args2 with
          | .error _ => ([sa, a], .error (.JniCallMethod ON_EVENT_METHOD ON_EVENT_SIG))
          | .ok _ => ([sa, a], .ok ())

def SEND_OFFER_MESSAGE_METHOD : String := "onSendOffer"

def SEND_OFFER_MESSAGE_SIG : String := "(JLorg/signal/ringrtc/Remote;IZLjava/lang/String;)V"

/-- Operation `Platform::on_send_offer` for `AndroidPlatform`. -/
def on_send_offer (p : AndroidPlatform) (remote_peer : JObjRef)
    (connection_id : ConnectionId) (broadcast : Bool) (description : String) :
    List Attempt × Except AndroidError Unit :=
  match p.java_env with
  | .error e => ([], .error e)
  | .ok env =>
    let jni_remote := remote_peer
    let jni_call_manager := p.jni_call_manager
    let call_id_jlong := u64_as_jlong connection_id.call_id
    let remote_device := u32_as_jint connection_id.remote_device
    match new_string env description with
    | .error e => ([], .error e)
    | .ok jni_description =>
      let args := [JValue.long call_id_jlong, JValue.object jni_remote,
                   JValue.int remote_device, JValue.boolean broadcast,
                   JValue.object jni_description]
      let a := Attempt.callMethod jni_call_manager SEND_OFFER_MESSAGE_METHOD
                 SEND_OFFER_MESSAGE_SIG args
      match env.call_method jni_call_manager SEND_OFFER_MESSAGE_METHOD
          SEND_OFFER_MESSAGE_SIG args with
      | .error _ => ([a], .error (.JniCallMethod SEND_OFFER_MESSAGE_METHOD SEND_OFFER_MESSAGE_SIG))
      | .ok _ => ([a], .ok ())

def SEND_ANSWER_MESSAGE_METHOD : String := "onSendAnswer"

def SEND_ANSWER_MESSAGE_SIG : String := "(JLorg/signal/ringrtc/Remote;IZLjava/lang/String;)V"

/-- Operation `Platform::on_send_answer` for `AndroidPlatform`. -/
def on_send_answer (p : AndroidPlatform) (remote_peer : JObjRef)
    (connection_id : ConnectionId) (broadcast : Bool) (description : String) :
    List Attempt × Except AndroidError Unit :=
  match p.java_env with
  | .error e => ([], .error e)
  | .ok env =>
    let jni_remote := remote_peer
    let jni_call_manager := p.jni_call_manager
    let call_id_jlong := u64_as_jlong connection_id.call_id
    let remote_device := u32_as_jint connection_id.remote_device
    match new_string env description with
    | .error e => ([], .error e)
    | .ok jni_description =>
      let args := [JValue.long call_id_jlong, JValue.object jni_remote,
                   JValue.int remote_device, JValue.boolean broadcast,
                   JValue.object jni_description]
      let a := Attempt.callMethod jni_call_manager SEND_ANSWER_MESSAGE_METHOD
                 SEND_ANSWER_MESSAGE_SIG args
      match env.call_method jni_call_manager SEND_ANSWER_MESSAGE_METHOD
          SEND_ANSWER_MESSAGE_SIG args with
      | .error _ => ([a], .error (.JniCallMethod SEND_ANSWER_MESSAGE_METHOD SEND_ANSWER_MESSAGE_SIG))
      | .ok _ => ([a], .ok ())

end RingRTC

namespace RingRTC

def ICE_CANDIDATE_CTOR_SIG : String := "(Ljava/lang/String;ILjava/lang/String;)V"

/-- Loop body of `on_send_ice_candidates`: for each candidate, marshal its
two strings, construct one host `IceCandidate` object and append it to the
host list; any step failing aborts with its error. -/
def build_ice_list (env : EnvModel) (ice_candidate_class : JClass)
    (acc : List JObjRef) : List IceCandidate → Except AndroidError (List JObjRef)
  | [] => .ok acc
  | candidate :: rest =>
    match new_string env candidate.sdp_mid with
    | .error e => .error e
    | .ok sdp_mid =>
      match new_string env candidate.sdp with
      | .error e => .error e
      | .ok sdp =>
        let args := [JValue.object sdp_mid, JValue.int candidate.sdp_mline_index,
                     JValue.object sdp]
        match new_object env ice_candidate_class args with
        | .error e => .error e
        | .ok ice_update_message_obj =>
          match list_add env acc ice_update_message_obj with
          | .error e => .error e
          | .ok acc2 => build_ice_list env ice_candidate_class acc2 rest

def ON_SEND_ICE_CANDIDATES_METHOD : String := "onSendIceCandidates"

def ON_SEND_ICE_CANDIDATES_SIG : String := "(JLorg/signal/ringrtc/Remote;IZLjava/util/List;)V"

/-- Operation `Platform::on_send_ice_candidates` for `AndroidPlatform`:
builds a host `LinkedList` with one element per input candidate, appended in
input order, then notifies the host. -/
def on_send_ice_candidates (p : AndroidPlatform) (remote_peer : JObjRef)
    (connection_id : ConnectionId) (broadcast : Bool)
    (ice_candidates : List IceCandidate) : List Attempt × Except AndroidError Unit :=
  match p.java_env with
  | .error e => ([], .error e)
  | .ok env =>
    let jni_remote := remote_peer
    let jni_call_manager := p.jni_call_manager
    let call_id_jlong := u64_as_jlong connection_id.call_id
    let remote_device := u32_as_jint connection_id.remote_device
    match p.class_cache.get_class ICE_CANDIDATE_CLASS with
    | .error e => ([], .error e)
    | .ok ice_candidate_class =>
      match jni_new_linked_list env with
      | .error e => ([], .error e)
      | .ok ice_candidate_list =>
        match build_ice_list env ice_candidate_class ice_candidate_list ice_candidates with
        | .error e => ([], .error e)
        | .ok ice_candidate_list =>
          let args := [JValue.long call_id_jlong, JValue.object jni_remote,
                       JValue.int remote_device, JValue.boolean broadcast,
                       JValue.object (.linkedList ice_candidate_list)]
          let a := Attempt.callMethod jni_call_manager ON_SEND_ICE_CANDIDATES_METHOD
                     ON_SEND_ICE_CANDIDATES_SIG args
          match env.call_method jni_call_manager ON_SEND_ICE_CANDIDATES_METHOD
              ON_SEND_ICE_CANDIDATES_SIG args with
          | .error _ => ([a], .error (.JniCallMethod ON_SEND_ICE_CANDIDATES_METHOD
                                        ON_SEND_ICE_CANDIDATES_SIG))
          | .ok _ => ([a], .ok ())

def SEND_HANGUP_MESSAGE_METHOD : String := "onSendHangup"

def SEND_HANGUP_MESSAGE_SIG : String := "(JLorg/signal/ringrtc/Remote;IZ)V"

/-- Operation `Platform::on_send_hangup` for `AndroidPlatform`. -/
def on_send_hangup (p : AndroidPlatform) (remote_peer : JObjRef)
    (connection_id : ConnectionId) (broadcast : Bool) :
    List Attempt × Except AndroidError Unit :=
  match p.java_env with
  | .error e => ([], .error e)
  | .ok env =>
    let jni_remote := remote_peer
    let jni_call_manager := p.jni_call_manager
    let call_id_jlong := u64_as_jlong connection_id.call_id
    let remote_device := u32_as_jint connection_id.remote_device
    let args := [JValue.long call_id_jlong, JValue.object jni_remote,
                 JValue.int remote_device, JValue.boolean broadcast]
    let a := Attempt.callMethod jni_call_manager SEND_HANGUP_MESSAGE_METHOD
               SEND_HANGUP_MESSAGE_SIG args
    match env.call_method jni_call_manager SEND_HANGUP_MESSAGE_METHOD
        SEND_HANGUP_MESSAGE_SIG args with
    | .error _ => ([a], .error (.JniCallMethod SEND_HANGUP_MESSAGE_METHOD SEND_HANGUP_MESSAGE_SIG))
    | .ok _ => ([a], .ok ())

def SEND_BUSY_MESSAGE_METHOD : String := "onSendBusy"

def SEND_BUSY_MESSAGE_SIG : String := "(JLorg/signal/ringrtc/Remote;IZ)V"

/-- Operation `Platform::on_send_busy` for `AndroidPlatform`. -/
def on_send_busy (p : AndroidPlatform) (remote_peer : JObjRef)
    (connection_id : ConnectionId) (broadcast : Bool) :
    List Attempt × Except AndroidError Unit :=
  match p.java_env with
  | .error e => ([], .error e)
  | .ok env =>
    let jni_remote := remote_peer
    let jni_call_manager := p.jni_call_manager
    let call_id_jlong := u64_as_jlong connection_id.call_id
    let remote_device := u32_as_jint connection_id.remote_device
    let args := [JValue.long call_id_jlong, JValue.object jni_remote,
                 JValue.int remote_device, JValue.boolean broadcast]
    let a := Attempt.callMethod jni_call_manager SEND_BUSY_MESSAGE_METHOD
               SEND_BUSY_MESSAGE_SIG args
    match env.call_method jni_call_manager SEND_BUSY_MESSAGE_METHOD
        SEND_BUSY_MESSAGE_SIG args with
    | .error _ => ([a], .error (.JniCallMethod SEND_BUSY_MESSAGE_METHOD SEND_BUSY_MESSAGE_SIG))
    | .ok _ => ([a], .ok ())

/-- Operation `Platform::create_media_stream` for `AndroidPlatform`: wraps
the native stream via `JavaMediaStream::new` (external collaborator, its
outcome supplied as `jms_new`); no host method is invoked. -/
def create_media_stream (jms_new : Except Unit JavaMediaStream) :
    List Attempt × Except AndroidError JavaMediaStream :=
  match jms_new with
  | .ok jms => ([], .ok jms)
  | .error _ => ([], .error .MediaStreamCreate)

def CONNECT_MEDIA_METHOD : String := "onConnectMedia"

def CONNECT_MEDIA_SIG : String :=
  "(Lorg/signal/ringrtc/CallManager$CallContext;Lorg/webrtc/MediaStream;)V"

/-- Operation `Platform::on_connect_media` for `AndroidPlatform`. -/
def on_connect_media (p : AndroidPlatform) (app_call_context : AndroidCallContext)
    (media_stream : JavaMediaStream) : List Attempt × Except AndroidError Unit :=
  match p.java_env with
  | .error e => ([], .error e)
  | .ok env =>
    let jni_call_manager := p.jni_call_manager
    let jni_call_context := app_call_context.to_jni
    match media_stream.global_ref with
    | .error e => ([], .error e)
    | .ok jni_media_stream =>
      let args := [JValue.object jni_call_context, JValue.object jni_media_stream]
      let a := Attempt.callMethod jni_call_manager CONNECT_MEDIA_METHOD CONNECT_MEDIA_SIG args
      match env.call_method jni_call_manager CONNECT_MEDIA_METHOD CONNECT_MEDIA_SIG args with
      | .error _ => ([a], .error (.JniCallMethod CONNECT_MEDIA_METHOD CONNECT_MEDIA_SIG))
      | .ok _ => ([a], .ok ())

def CLOSE_MEDIA_METHOD : String := "onCloseMedia"

def CLOSE_MEDIA_SIG : String := "(Lorg/signal/ringrtc/CallManager$CallContext;)V"

/-- Operation `Platform::on_close_media` for `AndroidPlatform`. -/
def on_close_media (p : AndroidPlatform) (app_call_context : AndroidCallContext) :
    List Attempt × Except AndroidError Unit :=
  match p.java_env with
  | .error e => ([], .error e)
  | .ok env =>
    let jni_call_manager := p.jni_call_manager
    let jni_call_context := app_call_context.to_jni
    let args := [JValue.object jni_call_context]
    let a := Attempt.callMethod jni_call_manager CLOSE_MEDIA_METHOD CLOSE_MEDIA_SIG args
    match env.call_method jni_call_manager CLOSE_MEDIA_METHOD CLOSE_MEDIA_SIG args with
    | .error _ => ([a], .error (.JniCallMethod CLOSE_MEDIA_METHOD CLOSE_MEDIA_SIG))
    | .ok _ => ([a], .ok ())

def COMPARE_REMOTES_METHOD : String := "compareRemotes"

def COMPARE_REMOTES_SIG : String :=
  "(Lorg/signal/ringrtc/Remote;Lorg/signal/ringrtc/Remote;)Z"

/-- Operation `Platform::compare_remotes` for `AndroidPlatform`: delegates
identity comparison to the host and returns its boolean result. -/
def compare_remotes (p : AndroidPlatform) (remote_peer1 remote_peer2 : JObjRef) :
    List Attempt × Except AndroidError Bool :=
  match p.java_env with
  | .error e => ([], .error e)
  | .ok env =>
    let jni_call_manager := p.jni_call_manager
    let args := [JValue.object remote_peer1, JValue.object remote_peer2]
    let a := Attempt.callMethod jni_call_manager COMPARE_REMOTES_METHOD COMPARE_REMOTES_SIG args
    match env.call_method jni_call_manager COMPARE_REMOTES_METHOD COMPARE_REMOTES_SIG args with
    | .error _ => ([a], .error (.JniCallMethod COMPARE_REMOTES_METHOD COMPARE_REMOTES_SIG))
    | .ok result =>
      match result.z with
      | .error _ => ([a], .error .ValueConversion)
      | .ok b => ([a], .ok b)

def CALL_CONCLUDED_METHOD : String := "onCallConcluded"

def CALL_CONCLUDED_SIG : String := "(Lorg/signal/ringrtc/Remote;)V"

/-- Operation `Platform::on_call_concluded` for `AndroidPlatform`. -/
def on_call_concluded (p : AndroidPlatform) (remote_peer : JObjRef) :
    List Attempt × Except AndroidError Unit :=
  match p.java_env with
  | .error e => ([], .error e)
  | .ok env =>
    let jni_call_manager := p.jni_call_manager
    let jni_remote_peer := remote_peer
    let args := [JValue.object jni_remote_peer]
    let a := Attempt.callMethod jni_call_manager CALL_CONCLUDED_METHOD CALL_CONCLUDED_SIG args
    match env.call_method jni_call_manager CALL_CONCLUDED_METHOD CALL_CONCLUDED_SIG args with
    | .error _ => ([a], .error (.JniCallMethod CALL_CONCLUDED_METHOD CALL_CONCLUDED_SIG))
    | .ok _ => ([a], .ok ())

end RingRTC

namespace RingRTC

/-- Boolean success test for an `Except` result. -/
def exceptOk {α β : Type} : Except α β → Bool
  | .ok _ => true
  | .error _ => false

def CLOSE_CALL_METHOD : String := "closeCall"

def CLOSE_CALL_SIG : String := "(Lorg/signal/ringrtc/CallManager$CallContext;)V"

def CLOSE_CONNECTION_METHOD : String := "closeConnection"

def CLOSE_CONNECTION_SIG : String := "(Lorg/signal/ringrtc/Connection;)V"

/-- Body of `impl Drop for JavaCallContext`, run on the thread performing the
final drop (`thread_jvm` is that thread's view of the `JavaVM`): if an
environment can be obtained (re-attaching if necessary) the host `closeCall`
method is invoked with the held context and its outcome discarded; otherwise
nothing is attempted. The destructor is total: it returns only the list of
attempted host calls and can propagate no error. -/
def JavaCallContext.drop_attempts (self : JavaCallContext) (thread_jvm : Jvm) :
    List Attempt :=
  match AndroidPlatform.java_env { self.platform with jvm := thread_jvm } with
  | .ok _ =>
    [Attempt.callMethod self.platform.jni_call_manager CLOSE_CALL_METHOD CLOSE_CALL_SIG
      [JValue.object self.jni_call_context]]
  | .error _ => []

/-- Body of `impl Drop for JavaConnection`, analogous to
`JavaCallContext.drop_attempts` with the host `closeConnection` method. -/
def JavaConnection.drop_attempts (self : JavaConnection) (thread_jvm : Jvm) :
    List Attempt :=
  match AndroidPlatform.java_env { self.platform with jvm := thread_jvm } with
  | .ok _ =>
    [Attempt.callMethod self.platform.jni_call_manager CLOSE_CONNECTION_METHOD
      CLOSE_CONNECTION_SIG [JValue.object self.jni_connection]]
  | .error _ => []

/-- One event in the life of a reference-counted handle (`Arc` clone or
drop); a drop carries the dropping thread's view of the `JavaVM`. -/
inductive HandleEvent where
  | clone
  | drop (thread_jvm : Jvm)

/-- Arc semantics of `#[derive(Clone)]` wrappers over an inner structure with
a `Drop` impl: starting from `count` live owners, process clone/drop events;
the drop that releases the last owner runs the inner destructor (`dropFn`)
on the dropping thread, and only that drop does. Returns all host calls
attempted by destructor runs, in order. -/
def run_handle (dropFn : Jvm → List Attempt) : Nat → List HandleEvent → List Attempt
  | _, [] => []
  | count, HandleEvent.clone :: rest => run_handle dropFn (count + 1) rest
  | count, HandleEvent.drop jvm :: rest =>
    if count = 1 then dropFn jvm ++ run_handle dropFn 0 rest
    else run_handle dropFn (count - 1) rest

/-- Complete well-formed event sequences for a handle with `n` live owners:
every event acts on a live owner (the count never touches zero before the
end) and the sequence ends with all owners dropped. -/
inductive ValidTrace : Nat → List HandleEvent → Prop where
  | last (jvm : Jvm) : ValidTrace 1 [HandleEvent.drop jvm]
  | clone (n : Nat) (t : List HandleEvent) :
      ValidTrace (n + 2) t → ValidTrace (n + 1) (HandleEvent.clone :: t)
  | drop (n : Nat) (jvm : Jvm) (t : List HandleEvent) :
      ValidTrace (n + 1) t → ValidTrace (n + 2) (HandleEvent.drop jvm :: t)

/-- Number of attempted invocations of the named host method. -/
def count_calls (attempts : List Attempt) (method : String) : Nat :=
  (attempts.filter fun a =>
    match a with
    | .callMethod _ m _ _ => m == method
    | .callStaticMethod _ _ _ _ => false).length

end RingRTC

namespace RingRTC

/-- Host method name of an attempted invocation. -/
def attempt_method : Attempt → String
  | .callMethod _ m _ _ => m
  | .callStaticMethod _ m _ _ => m

/-- Signature and argument list of an attempted invocation, the method name
and receiver stripped. -/
def attempt_sig_args : Attempt → String × List JValue
  | .callMethod _ _ sig args => (sig, args)
  | .callStaticMethod _ _ sig args => (sig, args)

/-- Host-side element `on_send_ice_candidates` constructs for one candidate:
a `new IceCandidate(sdp_mid, sdp_mline_index, sdp)` host object with the two
strings marshalled. -/
def marshal_ice (c : IceCandidate) : JObjRef :=
  .newObj ICE_CANDIDATE_CLASS
    [JValue.object (.jstring c.sdp_mid), JValue.int c.sdp_mline_index,
     JValue.object (.jstring c.sdp)]

/-- Fully qualified class path the `on_event` lookup targets. -/
def CALL_EVENT_CLASS_PATH : String := "org/signal/ringrtc/CallManager$CallEvent"

/-- Signature of the `fromNativeIndex` static ordinal lookup. -/
def FROM_NATIVE_INDEX_SIG : String := "(I)Lorg/signal/ringrtc/CallManager$CallEvent;"

/-- Concrete fully succeeding host environment. -/
def goodEnv : EnvModel :=
  { call_method := fun _ _ _ _ => .ok (JValue.boolean true)
    call_static_method := fun cls _ _ _ => .ok (JValue.object (JObjRef.newObj cls []))
    new_string_ok := fun _ => true
    new_object_ok := true
    new_linked_list_ok := true
    list_add_ok := true
    new_global_ref_ok := true
    find_class_ok := fun _ => true
    get_java_vm_ok := true }

/-- Concrete environment whose host method calls all fail. -/
def failCallEnv : EnvModel :=
  { goodEnv with call_method := fun _ _ _ _ => .error () }

/-- Concrete environment whose `createConnection` host factory returns a
null object. -/
def nullConnEnv : EnvModel :=
  { goodEnv with call_method := fun _ _ _ _ => .ok (JValue.object JObjRef.null) }

/-- Concrete environment whose static `fromNativeIndex` lookup fails. -/
def failStaticEnv : EnvModel :=
  { goodEnv with call_static_method := fun _ _ _ _ => .error () }

/-- Thread view with a live binding. -/
def goodJvm : Jvm := { get_env := some goodEnv, attach_as_daemon := .ok goodEnv }

/-- Thread view that is unattached but can attach as a daemon. -/
def detachedJvm : Jvm := { get_env := none, attach_as_daemon := .ok goodEnv }

/-- Thread view that is unattached and whose attachment fails. -/
def badJvm : Jvm := { get_env := none, attach_as_daemon := .error () }

/-- Concrete platform with the construction-time class cache populated. -/
def testPlatform : AndroidPlatform :=
  { jvm := goodJvm
    jni_call_manager := JObjRef.jobject 0
    class_cache := { entries := [CALL_EVENT_CLASS_PATH, ICE_CANDIDATE_CLASS] } }

/-- Concrete platform on an unattached thread whose attachment fails. -/
def badPlatform : AndroidPlatform := { testPlatform with jvm := badJvm }

/-- Concrete inner call-context wrapper. -/
def testCallContext : JavaCallContext :=
  { platform := testPlatform, jni_call_context := JObjRef.jobject 1 }

/-- Concrete inner connection wrapper. -/
def testConnection : JavaConnection :=
  { platform := testPlatform, jni_connection := JObjRef.jobject 2 }

/-- Concrete call collaborator. -/
def testCall : Call :=
  { call_id := 7
    call_context := .ok (AndroidCallContext.new testPlatform (JObjRef.jobject 1)) }

/-- Concrete core-collaborator outcomes, all succeeding. -/
def goodOracle : CoreOracle :=
  { connection_new_ok := true, connection_ptr := .ok 42, set_app_connection_ok := true }

end RingRTC

namespace RingRTC

/-- Concrete platform whose thread env returns a null connection object
from every host method call. -/
def nullConnPlatform : AndroidPlatform :=
  { testPlatform with
    jvm := { get_env := some nullConnEnv, attach_as_daemon := .ok nullConnEnv } }

/-- Concrete platform whose thread env fails every host method call. -/
def failCallPlatform : AndroidPlatform :=
  { testPlatform with
    jvm := { get_env := some failCallEnv, attach_as_daemon := .ok failCallEnv } }

/-- Concrete platform whose thread env fails the static ordinal lookup. -/
def failStaticPlatform : AndroidPlatform :=
  { testPlatform with
    jvm := { get_env := some failStaticEnv, attach_as_daemon := .ok failStaticEnv } }

/-- Concrete wrapped media stream. -/
def testJms : JavaMediaStream := { stream_ref := JObjRef.jobject 5, global_ref_ok := true }

/-- Renaming of one host method name in an attempted invocation, used to
state that two operations marshal identically up to the invoked method. -/
def rename_attempt (m1 m2 : String) : Attempt → Attempt
  | .callMethod recv m sig args => .callMethod recv (if m == m1 then m2 else m) sig args
  | a => a

/-- The same renaming on the method name carried inside an error. -/
def rename_error (m1 m2 : String) : AndroidError → AndroidError
  | .JniCallMethod m s => .JniCallMethod (if m == m1 then m2 else m) s
  | e => e

theorem run_handle_valid (dropFn : Jvm → List Attempt) (n : Nat) (t : List HandleEvent)
    (h : ValidTrace n t) :
    ∃ jvm, t.getLast? = some (HandleEvent.drop jvm) ∧
      run_handle dropFn n t = dropFn jvm := by
  induction h with
  | last jvm =>
    exact ⟨jvm, rfl, by simp [run_handle]⟩
  | clone n t ht ih =>
    obtain ⟨jvm, hlast, hrun⟩ := ih
    cases t with
    | nil => simp at hlast
    | cons a t2 =>
      exact ⟨jvm, by simpa [List.getLast?_cons_cons] using hlast,
        by simpa [run_handle] using hrun⟩
  | drop n jvm0 t ht ih =>
    obtain ⟨jvm, hlast, hrun⟩ := ih
    cases t with
    | nil => simp at hlast
    | cons a t2 =>
      refine ⟨jvm, by simpa [List.getLast?_cons_cons] using hlast, ?_⟩
      have h1 : ¬(n + 2 = 1) := by omega
      simpa [run_handle, h1] using hrun

theorem count_calls_ctx_drop (ctx : JavaCallContext) (jvm : Jvm) :
    count_calls (ctx.drop_attempts jvm) CLOSE_CALL_METHOD =
      if exceptOk (AndroidPlatform.java_env { ctx.platform with jvm := jvm }) then 1 else 0 := by
  unfold JavaCallContext.drop_attempts exceptOk
  cases AndroidPlatform.java_env { ctx.platform with jvm := jvm } <;> simp [count_calls]

theorem count_calls_conn_drop (conn : JavaConnection) (jvm : Jvm) :
    count_calls (conn.drop_attempts jvm) CLOSE_CONNECTION_METHOD =
      if exceptOk (AndroidPlatform.java_env { conn.platform with jvm := jvm }) then 1 else 0 := by
  unfold JavaConnection.drop_attempts exceptOk
  cases AndroidPlatform.java_env { conn.platform with jvm := jvm } <;> simp [count_calls]

end RingRTC

namespace RingRTC

/-- C1 (amended): for every complete sequence of clones and drops of an
`AndroidCallContext` or `AndroidConnection` handle (starting from the one
originally created owner), the sequence ends with the drop of the last owner,
the corresponding host-side close operation (`closeCall`, resp.
`closeConnection`) is invoked at most once, and it is invoked exactly once
provided the thread performing the final drop obtains a JNI environment
(already attached, or re-attachment succeeds) — regardless of drop order or
which thread performs the final drop. -/
theorem handle_close_exactly_once (ctx : JavaCallContext) (conn : JavaConnection)
    (t : List HandleEvent) (h : ValidTrace 1 t) :
    ∃ jvm, t.getLast? = some (HandleEvent.drop jvm) ∧
      count_calls (run_handle ctx.drop_attempts 1 t) CLOSE_CALL_METHOD =
        (if exceptOk (AndroidPlatform.java_env { ctx.platform with jvm := jvm })
          then 1 else 0) ∧
      count_calls (run_handle conn.drop_attempts 1 t) CLOSE_CONNECTION_METHOD =
        (if exceptOk (AndroidPlatform.java_env { conn.platform with jvm := jvm })
          then 1 else 0) ∧
      count_calls (run_handle ctx.drop_attempts 1 t) CLOSE_CALL_METHOD ≤ 1 ∧
      count_calls (run_handle conn.drop_attempts 1 t) CLOSE_CONNECTION_METHOD ≤ 1 := by
  obtain ⟨jvm, hlast, hrun⟩ := run_handle_valid ctx.drop_attempts 1 t h
  obtain ⟨jvm2, hlast2, hrun2⟩ := run_handle_valid conn.drop_attempts 1 t h
  rw [hlast] at hlast2
  injection hlast2 with h3
  injection h3 with h4
  rw [← h4] at hrun2
  refine ⟨jvm, hlast, ?_, ?_, ?_, ?_⟩
  · rw [hrun, count_calls_ctx_drop]
  · rw [hrun2, count_calls_conn_drop]
  · rw [hrun, count_calls_ctx_drop]
    split <;> omega
  · rw [hrun2, count_calls_conn_drop]
    split <;> omega

/-- Witness for C1 (amended) on a concrete trace: one clone, a first drop on
a thread that cannot attach, and the final drop on an attached thread. -/
theorem handle_close_exactly_once_witness :
    ValidTrace 1
      [HandleEvent.clone, HandleEvent.drop badJvm, HandleEvent.drop goodJvm] ∧
    (∃ jvm,
      [HandleEvent.clone, HandleEvent.drop badJvm,
        HandleEvent.drop goodJvm].getLast? = some (HandleEvent.drop jvm) ∧
      count_calls
        (run_handle testCallContext.drop_attempts 1
          [HandleEvent.clone, HandleEvent.drop badJvm, HandleEvent.drop goodJvm])
        CLOSE_CALL_METHOD =
        (if exceptOk (AndroidPlatform.java_env { testCallContext.platform with jvm := jvm })
          then 1 else 0) ∧
      count_calls
        (run_handle testConnection.drop_attempts 1
          [HandleEvent.clone, HandleEvent.drop badJvm, HandleEvent.drop goodJvm])
        CLOSE_CONNECTION_METHOD =
        (if exceptOk (AndroidPlatform.java_env { testConnection.platform with jvm := jvm })
          then 1 else 0) ∧
      count_calls
        (run_handle testCallContext.drop_attempts 1
          [HandleEvent.clone, HandleEvent.drop badJvm, HandleEvent.drop goodJvm])
        CLOSE_CALL_METHOD ≤ 1 ∧
      count_calls
        (run_handle testConnection.drop_attempts 1
          [HandleEvent.clone, HandleEvent.drop badJvm, HandleEvent.drop goodJvm])
        CLOSE_CONNECTION_METHOD ≤ 1) :=
  ⟨ValidTrace.clone 0 _ (ValidTrace.drop 0 badJvm _ (ValidTrace.last goodJvm)),
    handle_close_exactly_once testCallContext testConnection _
      (ValidTrace.clone 0 _ (ValidTrace.drop 0 badJvm _ (ValidTrace.last goodJvm)))⟩

/-- Counterexample to C1 as stated: a complete trace of the originally
created handle whose final (and only) drop runs on an unattached thread whose
re-attachment fails; the handle is fully released yet `closeCall` is invoked
zero times, not exactly once. -/
theorem handle_close_zero_on_attach_failure :
    ValidTrace 1 [HandleEvent.drop badJvm] ∧
    count_calls
      (run_handle testCallContext.drop_attempts 1 [HandleEvent.drop badJvm])
      CLOSE_CALL_METHOD = 0 :=
  ⟨ValidTrace.last badJvm, rfl⟩

/-- C6: when the thread performing the final drop of a call-context or
connection handle cannot obtain a JNI environment (re-attachment fails), the
close notification is skipped silently: the destructor attempts no host call
at all over the whole trace, and — being a total function into a list of
attempted calls — propagates no error. -/
theorem drop_attach_failure_skips_close (ctx : JavaCallContext) (conn : JavaConnection)
    (t : List HandleEvent) (thread_jvm : Jvm)
    (hctx : exceptOk (AndroidPlatform.java_env { ctx.platform with jvm := thread_jvm }) = false)
    (hconn : exceptOk (AndroidPlatform.java_env { conn.platform with jvm := thread_jvm }) = false)
    (h : ValidTrace 1 t) (hlast : t.getLast? = some (HandleEvent.drop thread_jvm)) :
    ctx.drop_attempts thread_jvm = [] ∧
    conn.drop_attempts thread_jvm = [] ∧
    count_calls (run_handle ctx.drop_attempts 1 t) CLOSE_CALL_METHOD = 0 ∧
    count_calls (run_handle conn.drop_attempts 1 t) CLOSE_CONNECTION_METHOD = 0 := by
  have hctx2 : ctx.drop_attempts thread_jvm = [] := by
    unfold JavaCallContext.drop_attempts
    unfold exceptOk at hctx
    cases he : AndroidPlatform.java_env { ctx.platform with jvm := thread_jvm } with
    | ok v => rw [he] at hctx; simp at hctx
    | error e => rfl
  have hconn2 : conn.drop_attempts thread_jvm = [] := by
    unfold JavaConnection.drop_attempts
    unfold exceptOk at hconn
    cases he : AndroidPlatform.java_env { conn.platform with jvm := thread_jvm } with
    | ok v => rw [he] at hconn; simp at hconn
    | error e => rfl
  obtain ⟨jvm, hlast2, hrun⟩ := run_handle_valid ctx.drop_attempts 1 t h
  obtain ⟨jvm2, hlast3, hrun2⟩ := run_handle_valid conn.drop_attempts 1 t h
  rw [hlast] at hlast2 hlast3
  injection hlast2 with h3
  injection h3 with h4
  injection hlast3 with h5
  injection h5 with h6
  rw [← h4] at hrun
  rw [← h6] at hrun2
  exact ⟨hctx2, hconn2, by rw [hrun, hctx2]; rfl, by rw [hrun2, hconn2]; rfl⟩

/-- Witness for C6 at a concrete unattachable thread and single-drop trace. -/
theorem drop_attach_failure_skips_close_witness :
    exceptOk (AndroidPlatform.java_env { testCallContext.platform with jvm := badJvm }) = false ∧
    exceptOk (AndroidPlatform.java_env { testConnection.platform with jvm := badJvm }) = false ∧
    ValidTrace 1 [HandleEvent.drop badJvm] ∧
    [HandleEvent.drop badJvm].getLast? = some (HandleEvent.drop badJvm) ∧
    (testCallContext.drop_attempts badJvm = [] ∧
      testConnection.drop_attempts badJvm = [] ∧
      count_calls (run_handle testCallContext.drop_attempts 1 [HandleEvent.drop badJvm])
        CLOSE_CALL_METHOD = 0 ∧
      count_calls (run_handle testConnection.drop_attempts 1 [HandleEvent.drop badJvm])
        CLOSE_CONNECTION_METHOD = 0) :=
  ⟨rfl, rfl, ValidTrace.last badJvm, rfl,
    drop_attach_failure_skips_close testCallContext testConnection
      [HandleEvent.drop badJvm] badJvm rfl rfl (ValidTrace.last badJvm) rfl⟩

end RingRTC

namespace RingRTC

/-- C7: on a boundary call the adapter first checks whether the current
thread already has a valid binding into the JVM and reuses it; only when the
thread has no binding does it attach the thread as a daemon; if that
attachment fails, the triggering operation fails with an error. -/
theorem java_env_reuse_or_attach (p : AndroidPlatform) (env0 : EnvModel)
    (remote : JObjRef) (call_id : Nat) (direction : CallDirection) :
    (p.jvm.get_env = some env0 → p.java_env = .ok env0) ∧
    (p.jvm.get_env = none → p.java_env = p.jvm.attach_current_thread_as_daemon) ∧
    (p.jvm.get_env = none → p.jvm.attach_as_daemon = .error () →
      p.java_env = .error .AttachCurrentThread ∧
      (on_start_call p remote call_id direction).2 = .error .AttachCurrentThread) := by
  refine ⟨?_, ?_, ?_⟩
  · intro h
    unfold AndroidPlatform.java_env
    rw [h]
  · intro h
    unfold AndroidPlatform.java_env
    rw [h]
  · intro h h2
    have he : p.java_env = .error .AttachCurrentThread := by
      unfold AndroidPlatform.java_env Jvm.attach_current_thread_as_daemon
      rw [h, h2]
    refine ⟨he, ?_⟩
    unfold on_start_call
    rw [he]

/-- Witness for C7: an attached thread reuses its binding, an unattachable
thread makes the triggering operation fail with the attachment error. -/
theorem java_env_reuse_or_attach_witness :
    AndroidPlatform.java_env testPlatform = .ok goodEnv ∧
    AndroidPlatform.java_env badPlatform = .error .AttachCurrentThread ∧
    (on_start_call badPlatform (JObjRef.jobject 3) 7 CallDirection.OutGoing).2 =
      .error .AttachCurrentThread :=
  ⟨(java_env_reuse_or_attach testPlatform goodEnv (JObjRef.jobject 3) 7
      CallDirection.OutGoing).1 rfl,
    ((java_env_reuse_or_attach badPlatform goodEnv (JObjRef.jobject 3) 7
      CallDirection.OutGoing).2.2 rfl rfl).1,
    ((java_env_reuse_or_attach badPlatform goodEnv (JObjRef.jobject 3) 7
      CallDirection.OutGoing).2.2 rfl rfl).2⟩

/-- C3: when the host `createConnection` factory returns a null connection
object, `create_connection` returns the distinct `CreateJniConnection`
null-result error — not a generic method-call or conversion failure — and no
`AndroidConnection` handle is constructed or attached: the operation yields
no connection. -/
theorem create_connection_null_result (p : AndroidPlatform) (oracle : CoreOracle)
    (call : Call) (remote_device : Nat) (env : EnvModel) (connection_ptr : Nat)
    (acc : AndroidCallContext)
    (h1 : oracle.connection_new_ok = true)
    (h2 : oracle.connection_ptr = .ok connection_ptr)
    (h3 : p.java_env = .ok env)
    (h4 : call.call_context = .ok acc)
    (h5 : ∀ args, env.call_method p.jni_call_manager CREATE_CONNECTION_METHOD
      CREATE_CONNECTION_SIG args = .ok (JValue.object JObjRef.null)) :
    (create_connection p oracle call remote_device).2 = .error .CreateJniConnection ∧
    (∀ conn, (create_connection p oracle call remote_device).2 ≠ .ok conn) ∧
    (∀ m s, AndroidError.CreateJniConnection ≠ .JniCallMethod m s) ∧
    AndroidError.CreateJniConnection ≠ .ValueConversion := by
  have hr : (create_connection p oracle call remote_device).2 =
      .error .CreateJniConnection := by
    unfold create_connection
    rw [h1]
    simp only [if_true, h2, h3, h4, h5, JValue.l, JObjRef.is_null]
  refine ⟨hr, ?_, ?_, ?_⟩
  · intro conn
    rw [hr]
    simp
  · intro m s
    simp
  · simp

/-- Witness for C3 at a concrete platform whose host factory returns null. -/
theorem create_connection_null_result_witness :
    (create_connection nullConnPlatform goodOracle testCall 3).2 =
      .error .CreateJniConnection ∧
    (∀ conn, (create_connection nullConnPlatform goodOracle testCall 3).2 ≠ .ok conn) ∧
    (∀ m s, AndroidError.CreateJniConnection ≠ .JniCallMethod m s) ∧
    AndroidError.CreateJniConnection ≠ .ValueConversion :=
  create_connection_null_result nullConnPlatform goodOracle testCall 3 nullConnEnv 42
    (AndroidCallContext.new testPlatform (JObjRef.jobject 1)) rfl rfl rfl rfl
    (fun _ => rfl)

end RingRTC

namespace RingRTC

/-- C4: `on_event` converts the native event value to the host enumeration by
the static `fromNativeIndex` ordinal-lookup call carrying the event's integer
discriminant (the lookup is the first attempted host call); if that lookup
call fails, `on_event` returns a resolution error naming the target class
path and the lookup method, and the subsequent `onEvent` host notification is
not attempted. -/
theorem on_event_ordinal_lookup (p : AndroidPlatform) (env : EnvModel)
    (remote : JObjRef) (event : ApplicationEvent)
    (h1 : p.java_env = .ok env)
    (h2 : p.class_cache.entries.contains CALL_EVENT_CLASS_PATH = true) :
    ((on_event p remote event).1.head? =
      some (Attempt.callStaticMethod CALL_EVENT_CLASS_PATH ENUM_FROM_NATIVE_INDEX_METHOD
        FROM_NATIVE_INDEX_SIG [JValue.int event.native_index])) ∧
    (env.call_static_method CALL_EVENT_CLASS_PATH ENUM_FROM_NATIVE_INDEX_METHOD
        FROM_NATIVE_INDEX_SIG [JValue.int event.native_index] = .error () →
      on_event p remote event =
        ([Attempt.callStaticMethod CALL_EVENT_CLASS_PATH ENUM_FROM_NATIVE_INDEX_METHOD
            FROM_NATIVE_INDEX_SIG [JValue.int event.native_index]],
          .error (.JniCallStaticMethod CALL_EVENT_CLASS_PATH ENUM_FROM_NATIVE_INDEX_METHOD
            FROM_NATIVE_INDEX_SIG)) ∧
        ∀ a ∈ (on_event p remote event).1, attempt_method a ≠ ON_EVENT_METHOD) := by
  have e1 : RINGRTC_PACKAGE ++ "/" ++ CALL_MANAGER_CLASS ++ "$" ++ "CallEvent" =
      CALL_EVENT_CLASS_PATH := rfl
  have e2 : "(I)L" ++ CALL_EVENT_CLASS_PATH ++ ";" = FROM_NATIVE_INDEX_SIG := rfl
  simp only [on_event, h1, ClassCache.get_class, e1, e2, h2, if_true]
  cases hsc : env.call_static_method CALL_EVENT_CLASS_PATH ENUM_FROM_NATIVE_INDEX_METHOD
      FROM_NATIVE_INDEX_SIG [JValue.int event.native_index] with
  | error u =>
    refine ⟨rfl, fun _ => ⟨rfl, ?_⟩⟩
    simp only [on_event, h1, ClassCache.get_class, e1, e2, h2, if_true, hsc]
    intro a ha
    simp only [List.mem_singleton] at ha
    subst ha
    simp [attempt_method, ENUM_FROM_NATIVE_INDEX_METHOD, ON_EVENT_METHOD]
  | ok v =>
    refine ⟨?_, fun hcontra => ?_⟩
    · cases hv : v.l with
      | error u => simp [hv]
      | ok o =>
        cases hcm : env.call_method p.jni_call_manager ON_EVENT_METHOD ON_EVENT_SIG
          [JValue.object remote, JValue.object o] with
        | error u => simp [hv, hcm]
        | ok w => simp [hv, hcm]
    · simp at hcontra

/-- Witness for C4 at a concrete platform whose static lookup fails. -/
theorem on_event_ordinal_lookup_witness :
    ((on_event failStaticPlatform (JObjRef.jobject 3) { native_index := 4 }).1.head? =
      some (Attempt.callStaticMethod CALL_EVENT_CLASS_PATH ENUM_FROM_NATIVE_INDEX_METHOD
        FROM_NATIVE_INDEX_SIG [JValue.int 4])) ∧
    (failStaticEnv.call_static_method CALL_EVENT_CLASS_PATH ENUM_FROM_NATIVE_INDEX_METHOD
        FROM_NATIVE_INDEX_SIG [JValue.int 4] = .error () →
      on_event failStaticPlatform (JObjRef.jobject 3) { native_index := 4 } =
        ([Attempt.callStaticMethod CALL_EVENT_CLASS_PATH ENUM_FROM_NATIVE_INDEX_METHOD
            FROM_NATIVE_INDEX_SIG [JValue.int 4]],
          .error (.JniCallStaticMethod CALL_EVENT_CLASS_PATH ENUM_FROM_NATIVE_INDEX_METHOD
            FROM_NATIVE_INDEX_SIG)) ∧
        ∀ a ∈ (on_event failStaticPlatform (JObjRef.jobject 3) { native_index := 4 }).1,
          attempt_method a ≠ ON_EVENT_METHOD) :=
  on_event_ordinal_lookup failStaticPlatform failStaticEnv (JObjRef.jobject 3)
    { native_index := 4 } rfl rfl

end RingRTC

namespace RingRTC

theorem build_ice_list_ok (env : EnvModel) (cls : JClass) (acc : List JObjRef)
    (cands : List IceCandidate)
    (hs : ∀ c ∈ cands, env.new_string_ok c.sdp_mid = true ∧ env.new_string_ok c.sdp = true)
    (hobj : env.new_object_ok = true) (hadd : env.list_add_ok = true) :
    build_ice_list env cls acc cands =
      .ok (acc ++ cands.map (fun c => JObjRef.newObj cls.name
        [JValue.object (.jstring c.sdp_mid), JValue.int c.sdp_mline_index,
          JValue.object (.jstring c.sdp)])) := by
  induction cands generalizing acc with
  | nil => simp [build_ice_list]
  | cons c rest ih =>
    have hc := hs c (by simp)
    simp only [build_ice_list, new_string, new_object, list_add, hc.1, hc.2, hobj, hadd,
      if_true]
    rw [ih _ (fun x hx => hs x (by simp [hx]))]
    simp

theorem build_ice_list_ok_flags (env : EnvModel) (cls : JClass) (acc : List JObjRef)
    (cands : List IceCandidate) (l : List JObjRef)
    (h : build_ice_list env cls acc cands = .ok l) :
    ∀ c ∈ cands, env.new_string_ok c.sdp_mid = true ∧ env.new_string_ok c.sdp = true ∧
      env.new_object_ok = true ∧ env.list_add_ok = true := by
  induction cands generalizing acc with
  | nil =>
    intro c hc
    simp at hc
  | cons c0 rest ih =>
    intro c hc
    simp only [build_ice_list, new_string, new_object, list_add] at h
    by_cases h1 : env.new_string_ok c0.sdp_mid = true
    case neg => simp [h1] at h
    by_cases h2 : env.new_string_ok c0.sdp = true
    case neg => simp [h1, h2] at h
    by_cases h3 : env.new_object_ok = true
    case neg => simp [h1, h2, h3] at h
    by_cases h4 : env.list_add_ok = true
    case neg => simp [h1, h2, h3, h4] at h
    simp only [h1, h2, h3, h4, if_true] at h
    rcases List.mem_cons.mp hc with rfl | hc2
    · exact ⟨h1, h2, h3, h4⟩
    · exact ih _ h c hc2

/-- C2: for every input list of ICE candidates of any length N (including 0),
`on_send_ice_candidates` builds the host-side ordered list with exactly one
element per input candidate, appended in input order, and passes it to the
single host notification it attempts; the operation succeeds exactly when
that final boundary call succeeds, and if any per-element construction step
failed the operation cannot have returned success (it returns an error). -/
theorem on_send_ice_candidates_ordered (p : AndroidPlatform) (env : EnvModel)
    (remote : JObjRef) (cid : ConnectionId) (broadcast : Bool)
    (cands : List IceCandidate)
    (h1 : p.java_env = .ok env)
    (h2 : p.class_cache.entries.contains ICE_CANDIDATE_CLASS = true) :
    (env.new_linked_list_ok = true →
      (∀ c ∈ cands, env.new_string_ok c.sdp_mid = true ∧ env.new_string_ok c.sdp = true) →
      env.new_object_ok = true → env.list_add_ok = true →
      on_send_ice_candidates p remote cid broadcast cands =
        ([Attempt.callMethod p.jni_call_manager ON_SEND_ICE_CANDIDATES_METHOD
            ON_SEND_ICE_CANDIDATES_SIG
            [JValue.long (u64_as_jlong cid.call_id), JValue.object remote,
              JValue.int (u32_as_jint cid.remote_device), JValue.boolean broadcast,
              JValue.object (.linkedList (cands.map marshal_ice))]],
          match env.call_method p.jni_call_manager ON_SEND_ICE_CANDIDATES_METHOD
              ON_SEND_ICE_CANDIDATES_SIG
              [JValue.long (u64_as_jlong cid.call_id), JValue.object remote,
                JValue.int (u32_as_jint cid.remote_device), JValue.boolean broadcast,
                JValue.object (.linkedList (cands.map marshal_ice))] with
          | .ok _ => .ok ()
          | .error _ => .error (.JniCallMethod ON_SEND_ICE_CANDIDATES_METHOD
              ON_SEND_ICE_CANDIDATES_SIG)) ∧
      (cands.map marshal_ice).length = cands.length) ∧
    (∀ u, (on_send_ice_candidates p remote cid broadcast cands).2 = .ok u →
      ∀ c ∈ cands, env.new_string_ok c.sdp_mid = true ∧ env.new_string_ok c.sdp = true ∧
        env.new_object_ok = true ∧ env.list_add_ok = true) := by
  constructor
  · intro hll hs hobj hadd
    refine ⟨?_, by simp⟩
    simp only [on_send_ice_candidates, h1, ClassCache.get_class, h2, if_true,
      jni_new_linked_list, hll]
    rw [build_ice_list_ok env _ [] cands hs hobj hadd]
    simp only [List.nil_append]
    have hfun : (fun c : IceCandidate => JObjRef.newObj ICE_CANDIDATE_CLASS
        [JValue.object (JObjRef.jstring c.sdp_mid), JValue.int c.sdp_mline_index,
          JValue.object (JObjRef.jstring c.sdp)]) = marshal_ice := rfl
    rw [hfun]
    cases hcm : env.call_method p.jni_call_manager ON_SEND_ICE_CANDIDATES_METHOD
        ON_SEND_ICE_CANDIDATES_SIG
        [JValue.long (u64_as_jlong cid.call_id), JValue.object remote,
          JValue.int (u32_as_jint cid.remote_device), JValue.boolean broadcast,
          JValue.object (.linkedList (cands.map marshal_ice))] with
    | ok w => simp [hcm]
    | error u => simp [hcm]
  · intro u hu
    simp only [on_send_ice_candidates, h1, ClassCache.get_class, h2, if_true,
      jni_new_linked_list] at hu
    by_cases hll : env.new_linked_list_ok = true
    case neg => simp [hll] at hu
    simp only [hll, if_true] at hu
    cases hb : build_ice_list env { name := ICE_CANDIDATE_CLASS } [] cands with
    | error e => rw [hb] at hu; simp at hu
    | ok l => exact build_ice_list_ok_flags env _ [] cands l hb

/-- Witness for C2 on a concrete two-candidate input. -/
theorem on_send_ice_candidates_ordered_witness :
    ((goodEnv.new_linked_list_ok = true →
      (∀ c ∈ [IceCandidate.mk "a" 0 "x", IceCandidate.mk "b" 1 "y"],
        goodEnv.new_string_ok c.sdp_mid = true ∧ goodEnv.new_string_ok c.sdp = true) →
      goodEnv.new_object_ok = true → goodEnv.list_add_ok = true →
      on_send_ice_candidates testPlatform (JObjRef.jobject 3) ⟨7, 2⟩ true
          [IceCandidate.mk "a" 0 "x", IceCandidate.mk "b" 1 "y"] =
        ([Attempt.callMethod testPlatform.jni_call_manager ON_SEND_ICE_CANDIDATES_METHOD
            ON_SEND_ICE_CANDIDATES_SIG
            [JValue.long (u64_as_jlong 7), JValue.object (JObjRef.jobject 3),
              JValue.int (u32_as_jint 2), JValue.boolean true,
              JValue.object (.linkedList
                ([IceCandidate.mk "a" 0 "x", IceCandidate.mk "b" 1 "y"].map marshal_ice))]],
          match goodEnv.call_method testPlatform.jni_call_manager
              ON_SEND_ICE_CANDIDATES_METHOD ON_SEND_ICE_CANDIDATES_SIG
              [JValue.long (u64_as_jlong 7), JValue.object (JObjRef.jobject 3),
                JValue.int (u32_as_jint 2), JValue.boolean true,
                JValue.object (.linkedList
                  ([IceCandidate.mk "a" 0 "x", IceCandidate.mk "b" 1 "y"].map marshal_ice))] with
          | .ok _ => .ok ()
          | .error _ => .error (.JniCallMethod ON_SEND_ICE_CANDIDATES_METHOD
              ON_SEND_ICE_CANDIDATES_SIG)) ∧
      ([IceCandidate.mk "a" 0 "x", IceCandidate.mk "b" 1 "y"].map marshal_ice).length =
        [IceCandidate.mk "a" 0 "x", IceCandidate.mk "b" 1 "y"].length) ∧
    (∀ u, (on_send_ice_candidates testPlatform (JObjRef.jobject 3) ⟨7, 2⟩ true
        [IceCandidate.mk "a" 0 "x", IceCandidate.mk "b" 1 "y"]).2 = .ok u →
      ∀ c ∈ [IceCandidate.mk "a" 0 "x", IceCandidate.mk "b" 1 "y"],
        goodEnv.new_string_ok c.sdp_mid = true ∧ goodEnv.new_string_ok c.sdp = true ∧
          goodEnv.new_object_ok = true ∧ goodEnv.list_add_ok = true)) :=
  on_send_ice_candidates_ordered testPlatform goodEnv (JObjRef.jobject 3) ⟨7, 2⟩ true
    [IceCandidate.mk "a" 0 "x", IceCandidate.mk "b" 1 "y"] rfl rfl

end RingRTC

namespace RingRTC

/-- C8: identifiers cross the boundary as fixed-width integers: the 64-bit
call id as a jlong that is the unsigned value reinterpreted as two's
complement (bit-identical, i.e. congruent modulo 2^64 and within jlong
range), the device id as a 32-bit jint, and the call direction as a native
boolean with outgoing mapped to true and incoming to false — as carried by
the argument lists of `on_start_call` and `on_send_offer` (and the same
`u64_as_jlong`/`u32_as_jint` encodings in `create_connection`). -/
theorem identifiers_fixed_width (p : AndroidPlatform) (env : EnvModel)
    (remote : JObjRef) (call_id device : Nat) (broadcast : Bool) (desc : String)
    (h1 : p.java_env = .ok env)
    (hc : call_id < 2 ^ 64) (hd : device < 2 ^ 32)
    (hs : env.new_string_ok desc = true) :
    ((on_start_call p remote call_id CallDirection.OutGoing).1.head? =
      some (.callMethod p.jni_call_manager START_CALL_METHOD START_CALL_SIG
        [JValue.object remote, JValue.long (u64_as_jlong call_id), JValue.boolean true])) ∧
    ((on_start_call p remote call_id CallDirection.InComing).1.head? =
      some (.callMethod p.jni_call_manager START_CALL_METHOD START_CALL_SIG
        [JValue.object remote, JValue.long (u64_as_jlong call_id), JValue.boolean false])) ∧
    ((on_send_offer p remote ⟨call_id, device⟩ broadcast desc).1.head? =
      some (.callMethod p.jni_call_manager SEND_OFFER_MESSAGE_METHOD SEND_OFFER_MESSAGE_SIG
        [JValue.long (u64_as_jlong call_id), JValue.object remote,
          JValue.int (u32_as_jint device), JValue.boolean broadcast,
          JValue.object (.jstring desc)])) ∧
    (u64_as_jlong call_id) % 2 ^ 64 = (call_id : Int) % 2 ^ 64 ∧
    -(2 ^ 63) ≤ u64_as_jlong call_id ∧ u64_as_jlong call_id < 2 ^ 63 ∧
    (u32_as_jint device) % 2 ^ 32 = (device : Int) % 2 ^ 32 ∧
    -(2 ^ 31) ≤ u32_as_jint device ∧ u32_as_jint device < 2 ^ 31 := by
  refine ⟨?_, ?_, ?_, ?_, ?_, ?_, ?_, ?_, ?_⟩
  · simp only [on_start_call, h1]
    cases env.call_method p.jni_call_manager START_CALL_METHOD START_CALL_SIG
      [JValue.object remote, JValue.long (u64_as_jlong call_id), JValue.boolean true] <;> rfl
  · simp only [on_start_call, h1]
    cases env.call_method p.jni_call_manager START_CALL_METHOD START_CALL_SIG
      [JValue.object remote, JValue.long (u64_as_jlong call_id), JValue.boolean false] <;> rfl
  · simp only [on_send_offer, h1, new_string, hs, if_true]
    cases env.call_method p.jni_call_manager SEND_OFFER_MESSAGE_METHOD SEND_OFFER_MESSAGE_SIG
      [JValue.long (u64_as_jlong call_id), JValue.object remote,
        JValue.int (u32_as_jint device), JValue.boolean broadcast,
        JValue.object (.jstring desc)] <;> rfl
  · unfold u64_as_jlong
    split <;> omega
  · unfold u64_as_jlong
    split <;> omega
  · unfold u64_as_jlong
    split <;> omega
  · unfold u32_as_jint
    split <;> omega
  · unfold u32_as_jint
    split <;> omega
  · unfold u32_as_jint
    split <;> omega

/-- Witness for C8 with a call id above 2^63 (exercising the two's-complement
wrap) and a device id above 2^31. -/
theorem identifiers_fixed_width_witness :
    ((on_start_call testPlatform (JObjRef.jobject 3) (2 ^ 63 + 5)
        CallDirection.OutGoing).1.head? =
      some (.callMethod testPlatform.jni_call_manager START_CALL_METHOD START_CALL_SIG
        [JValue.object (JObjRef.jobject 3), JValue.long (u64_as_jlong (2 ^ 63 + 5)),
          JValue.boolean true])) ∧
    ((on_start_call testPlatform (JObjRef.jobject 3) (2 ^ 63 + 5)
        CallDirection.InComing).1.head? =
      some (.callMethod testPlatform.jni_call_manager START_CALL_METHOD START_CALL_SIG
        [JValue.object (JObjRef.jobject 3), JValue.long (u64_as_jlong (2 ^ 63 + 5)),
          JValue.boolean false])) ∧
    ((on_send_offer testPlatform (JObjRef.jobject 3) ⟨2 ^ 63 + 5, 2 ^ 31 + 3⟩ true
        "sdp").1.head? =
      some (.callMethod testPlatform.jni_call_manager SEND_OFFER_MESSAGE_METHOD
        SEND_OFFER_MESSAGE_SIG
        [JValue.long (u64_as_jlong (2 ^ 63 + 5)), JValue.object (JObjRef.jobject 3),
          JValue.int (u32_as_jint (2 ^ 31 + 3)), JValue.boolean true,
          JValue.object (.jstring "sdp")])) ∧
    (u64_as_jlong (2 ^ 63 + 5)) % 2 ^ 64 = ((2 ^ 63 + 5 : Nat) : Int) % 2 ^ 64 ∧
    -(2 ^ 63) ≤ u64_as_jlong (2 ^ 63 + 5) ∧ u64_as_jlong (2 ^ 63 + 5) < 2 ^ 63 ∧
    (u32_as_jint (2 ^ 31 + 3)) % 2 ^ 32 = ((2 ^ 31 + 3 : Nat) : Int) % 2 ^ 32 ∧
    -(2 ^ 31) ≤ u32_as_jint (2 ^ 31 + 3) ∧ u32_as_jint (2 ^ 31 + 3) < 2 ^ 31 :=
  identifiers_fixed_width testPlatform goodEnv (JObjRef.jobject 3) (2 ^ 63 + 5)
    (2 ^ 31 + 3) true "sdp" rfl (by norm_num) (by norm_num) rfl

end RingRTC

namespace RingRTC

/-- C10: `on_send_offer` and `on_send_answer` perform identical marshalling —
the same signature and the same argument list (same encodings of call id,
device id, broadcast flag and description string), with the same error
behaviour — differing only in the invoked host method (`onSendOffer` versus
`onSendAnswer`): their attempted calls agree once the method name is
stripped, every offer attempt invokes `onSendOffer` and every answer attempt
`onSendAnswer`, the two signatures coincide, and under a host that treats the
two method names alike the whole outcome of `on_send_answer` is the renaming
of the outcome of `on_send_offer`. -/
theorem offer_answer_same_marshalling (p : AndroidPlatform) (remote : JObjRef)
    (cid : ConnectionId) (broadcast : Bool) (desc : String) :
    ((on_send_offer p remote cid broadcast desc).1.map attempt_sig_args =
      (on_send_answer p remote cid broadcast desc).1.map attempt_sig_args) ∧
    (∀ a ∈ (on_send_offer p remote cid broadcast desc).1,
      attempt_method a = SEND_OFFER_MESSAGE_METHOD) ∧
    (∀ a ∈ (on_send_answer p remote cid broadcast desc).1,
      attempt_method a = SEND_ANSWER_MESSAGE_METHOD) ∧
    SEND_OFFER_MESSAGE_SIG = SEND_ANSWER_MESSAGE_SIG ∧
    (∀ env, p.java_env = .ok env →
      (∀ recv sig args, env.call_method recv SEND_OFFER_MESSAGE_METHOD sig args =
        env.call_method recv SEND_ANSWER_MESSAGE_METHOD sig args) →
      on_send_answer p remote cid broadcast desc =
        ((on_send_offer p remote cid broadcast desc).1.map
            (rename_attempt SEND_OFFER_MESSAGE_METHOD SEND_ANSWER_MESSAGE_METHOD),
          (on_send_offer p remote cid broadcast desc).2.mapError
            (rename_error SEND_OFFER_MESSAGE_METHOD SEND_ANSWER_MESSAGE_METHOD))) := by
  refine ⟨?_, ?_, ?_, rfl, ?_⟩
  · cases henv : p.java_env with
    | error e => simp [on_send_offer, on_send_answer, henv]
    | ok env =>
      cases hns : new_string env desc with
      | error e => simp [on_send_offer, on_send_answer, henv, hns]
      | ok js =>
        cases hoc : env.call_method p.jni_call_manager SEND_OFFER_MESSAGE_METHOD
            SEND_OFFER_MESSAGE_SIG
            [JValue.long (u64_as_jlong cid.call_id), JValue.object remote,
              JValue.int (u32_as_jint cid.remote_device), JValue.boolean broadcast,
              JValue.object js] <;>
          cases hac : env.call_method p.jni_call_manager SEND_ANSWER_MESSAGE_METHOD
              SEND_ANSWER_MESSAGE_SIG
              [JValue.long (u64_as_jlong cid.call_id), JValue.object remote,
                JValue.int (u32_as_jint cid.remote_device), JValue.boolean broadcast,
                JValue.object js] <;>
            · simp only [on_send_offer, on_send_answer, henv, hns]
              rw [hoc, hac]
              simp [attempt_sig_args, SEND_OFFER_MESSAGE_SIG, SEND_ANSWER_MESSAGE_SIG]
  · cases henv : p.java_env with
    | error e => simp [on_send_offer, henv]
    | ok env =>
      cases hns : new_string env desc with
      | error e => simp [on_send_offer, henv, hns]
      | ok js =>
        cases hoc : env.call_method p.jni_call_manager SEND_OFFER_MESSAGE_METHOD
            SEND_OFFER_MESSAGE_SIG
            [JValue.long (u64_as_jlong cid.call_id), JValue.object remote,
              JValue.int (u32_as_jint cid.remote_device), JValue.boolean broadcast,
              JValue.object js] <;>
          simp [on_send_offer, henv, hns, hoc, attempt_method]
  · cases henv : p.java_env with
    | error e => simp [on_send_answer, henv]
    | ok env =>
      cases hns : new_string env desc with
      | error e => simp [on_send_answer, henv, hns]
      | ok js =>
        cases hac : env.call_method p.jni_call_manager SEND_ANSWER_MESSAGE_METHOD
            SEND_ANSWER_MESSAGE_SIG
            [JValue.long (u64_as_jlong cid.call_id), JValue.object remote,
              JValue.int (u32_as_jint cid.remote_device), JValue.boolean broadcast,
              JValue.object js] <;>
          simp [on_send_answer, henv, hns, hac, attempt_method]
  · intro env henv huni
    have hsig : SEND_ANSWER_MESSAGE_SIG = SEND_OFFER_MESSAGE_SIG := rfl
    simp only [on_send_offer, on_send_answer, henv, hsig, new_string]
    by_cases hso : env.new_string_ok desc = true
    case neg => simp [hso, Except.mapError, rename_error]
    simp only [hso, if_true]
    rw [← huni p.jni_call_manager SEND_OFFER_MESSAGE_SIG
      [JValue.long (u64_as_jlong cid.call_id), JValue.object remote,
        JValue.int (u32_as_jint cid.remote_device), JValue.boolean broadcast,
        JValue.object (JObjRef.jstring desc)]]
    cases hoc : env.call_method p.jni_call_manager SEND_OFFER_MESSAGE_METHOD
        SEND_OFFER_MESSAGE_SIG
        [JValue.long (u64_as_jlong cid.call_id), JValue.object remote,
          JValue.int (u32_as_jint cid.remote_device), JValue.boolean broadcast,
          JValue.object (JObjRef.jstring desc)] with
    | error u =>
      simp [hoc, rename_attempt, rename_error, Except.mapError,
        SEND_OFFER_MESSAGE_METHOD, SEND_ANSWER_MESSAGE_METHOD,
        SEND_OFFER_MESSAGE_SIG, SEND_ANSWER_MESSAGE_SIG]
    | ok w =>
      simp [hoc, rename_attempt, rename_error, Except.mapError,
        SEND_OFFER_MESSAGE_METHOD, SEND_ANSWER_MESSAGE_METHOD,
        SEND_OFFER_MESSAGE_SIG, SEND_ANSWER_MESSAGE_SIG]

/-- Witness for C10 at concrete inputs and a uniform host. -/
theorem offer_answer_same_marshalling_witness :
    ((on_send_offer testPlatform (JObjRef.jobject 3) ⟨7, 2⟩ false "sdp").1.map
        attempt_sig_args =
      (on_send_answer testPlatform (JObjRef.jobject 3) ⟨7, 2⟩ false "sdp").1.map
        attempt_sig_args) ∧
    (∀ a ∈ (on_send_offer testPlatform (JObjRef.jobject 3) ⟨7, 2⟩ false "sdp").1,
      attempt_method a = SEND_OFFER_MESSAGE_METHOD) ∧
    (∀ a ∈ (on_send_answer testPlatform (JObjRef.jobject 3) ⟨7, 2⟩ false "sdp").1,
      attempt_method a = SEND_ANSWER_MESSAGE_METHOD) ∧
    SEND_OFFER_MESSAGE_SIG = SEND_ANSWER_MESSAGE_SIG ∧
    (∀ env, testPlatform.java_env = .ok env →
      (∀ recv sig args, env.call_method recv SEND_OFFER_MESSAGE_METHOD sig args =
        env.call_method recv SEND_ANSWER_MESSAGE_METHOD sig args) →
      on_send_answer testPlatform (JObjRef.jobject 3) ⟨7, 2⟩ false "sdp" =
        ((on_send_offer testPlatform (JObjRef.jobject 3) ⟨7, 2⟩ false "sdp").1.map
            (rename_attempt SEND_OFFER_MESSAGE_METHOD SEND_ANSWER_MESSAGE_METHOD),
          (on_send_offer testPlatform (JObjRef.jobject 3) ⟨7, 2⟩ false "sdp").2.mapError
            (rename_error SEND_OFFER_MESSAGE_METHOD SEND_ANSWER_MESSAGE_METHOD))) :=
  offer_answer_same_marshalling testPlatform (JObjRef.jobject 3) ⟨7, 2⟩ false "sdp"

end RingRTC

namespace RingRTC

/-- C5: every adapter operation of the Platform implementation
(`create_connection`, `on_start_call`, `on_event`, `on_send_offer`,
`on_send_answer`, `on_send_ice_candidates`, `on_send_hangup`, `on_send_busy`,
`create_media_stream`, `on_connect_media`, `on_close_media`,
`compare_remotes`, `on_call_concluded`) returns a result value (each is
typed `Except AndroidError` in this embedding, mirroring the Rust `Result`),
and a boundary-call failure is surfaced as an error return — never swallowed
(and, the operations being total functions, never a panic): against a host
on which every method invocation fails (and the media-stream wrap fails),
all thirteen operations return errors, whatever the other host behaviours. -/
theorem adapter_ops_surface_boundary_failures (p : AndroidPlatform) (env : EnvModel)
    (oracle : CoreOracle) (call : Call) (remote remote2 : JObjRef)
    (remote_device call_id : Nat) (direction : CallDirection)
    (event : ApplicationEvent) (cid : ConnectionId) (broadcast : Bool)
    (desc : String) (cands : List IceCandidate) (acc : AndroidCallContext)
    (jms : JavaMediaStream)
    (h1 : p.java_env = .ok env)
    (hcm : ∀ recv m s args, env.call_method recv m s args = .error ()) :
    exceptOk (create_connection p oracle call remote_device).2 = false ∧
    exceptOk (on_start_call p remote call_id direction).2 = false ∧
    exceptOk (on_event p remote event).2 = false ∧
    exceptOk (on_send_offer p remote cid broadcast desc).2 = false ∧
    exceptOk (on_send_answer p remote cid broadcast desc).2 = false ∧
    exceptOk (on_send_ice_candidates p remote cid broadcast cands).2 = false ∧
    exceptOk (on_send_hangup p remote cid broadcast).2 = false ∧
    exceptOk (on_send_busy p remote cid broadcast).2 = false ∧
    exceptOk (create_media_stream (Except.error ())).2 = false ∧
    exceptOk (on_connect_media p acc jms).2 = false ∧
    exceptOk (on_close_media p acc).2 = false ∧
    exceptOk (compare_remotes p remote remote2).2 = false ∧
    exceptOk (on_call_concluded p remote).2 = false := by
  refine ⟨?_, ?_, ?_, ?_, ?_, ?_, ?_, ?_, ?_, ?_, ?_, ?_, ?_⟩
  · simp only [create_connection]
    by_cases hcn : oracle.connection_new_ok = true
    case neg => simp [hcn, exceptOk]
    simp only [hcn, if_true]
    cases hp : oracle.connection_ptr with
    | error u => simp [hp, exceptOk]
    | ok ptr =>
      simp only [hp, h1]
      cases hctx : call.call_context with
      | error u => simp [hctx, exceptOk]
      | ok acc2 => simp [hctx, hcm, exceptOk]
  · simp [on_start_call, h1, hcm, exceptOk]
  · simp only [on_event, h1]
    cases hg : p.class_cache.get_class
        (RINGRTC_PACKAGE ++ "/" ++ CALL_MANAGER_CLASS ++ "$" ++ "CallEvent") with
    | error e => simp [hg, exceptOk]
    | ok class_object =>
      cases hsc : env.call_static_method class_object.name ENUM_FROM_NATIVE_INDEX_METHOD
          ("(I)L" ++ (RINGRTC_PACKAGE ++ "/" ++ CALL_MANAGER_CLASS ++ "$" ++ "CallEvent") ++ ";")
          [JValue.int event.native_index] with
      | error u => simp [hg, hsc, exceptOk]
      | ok v =>
        cases hv : v.l with
        | error u => simp [hg, hsc, hv, exceptOk]
        | ok o => simp [hg, hsc, hv, hcm, exceptOk]
  · by_cases hso : env.new_string_ok desc = true <;>
      simp [on_send_offer, h1, new_string, hso, hcm, exceptOk]
  · by_cases hso : env.new_string_ok desc = true <;>
      simp [on_send_answer, h1, new_string, hso, hcm, exceptOk]
  · simp only [on_send_ice_candidates, h1]
    cases hg : p.class_cache.get_class ICE_CANDIDATE_CLASS with
    | error e => simp [hg, exceptOk]
    | ok ice_candidate_class =>
      cases hll : jni_new_linked_list env with
      | error e => simp [hg, hll, exceptOk]
      | ok l0 =>
        cases hb : build_ice_list env ice_candidate_class l0 cands with
        | error e => simp [hg, hll, hb, exceptOk]
        | ok l => simp [hg, hll, hb, hcm, exceptOk]
  · simp [on_send_hangup, h1, hcm, exceptOk]
  · simp [on_send_busy, h1, hcm, exceptOk]
  · simp [create_media_stream, exceptOk]
  · simp only [on_connect_media, h1]
    cases hg : jms.global_ref with
    | error e => simp [hg, exceptOk]
    | ok o => simp [hg, hcm, exceptOk]
  · simp [on_close_media, h1, hcm, exceptOk]
  · simp [compare_remotes, h1, hcm, exceptOk]
  · simp [on_call_concluded, h1, hcm, exceptOk]

/-- Witness for C5 on a concrete platform whose host calls all fail. -/
theorem adapter_ops_surface_boundary_failures_witness :
    exceptOk (create_connection failCallPlatform goodOracle testCall 3).2 = false ∧
    exceptOk (on_start_call failCallPlatform (JObjRef.jobject 3) 7
      CallDirection.OutGoing).2 = false ∧
    exceptOk (on_event failCallPlatform (JObjRef.jobject 3) { native_index := 2 }).2 = false ∧
    exceptOk (on_send_offer failCallPlatform (JObjRef.jobject 3) ⟨7, 2⟩ true "sdp").2 = false ∧
    exceptOk (on_send_answer failCallPlatform (JObjRef.jobject 3) ⟨7, 2⟩ true "sdp").2 = false ∧
    exceptOk (on_send_ice_candidates failCallPlatform (JObjRef.jobject 3) ⟨7, 2⟩ true
      [IceCandidate.mk "a" 0 "x"]).2 = false ∧
    exceptOk (on_send_hangup failCallPlatform (JObjRef.jobject 3) ⟨7, 2⟩ true).2 = false ∧
    exceptOk (on_send_busy failCallPlatform (JObjRef.jobject 3) ⟨7, 2⟩ true).2 = false ∧
    exceptOk (create_media_stream (Except.error ())).2 = false ∧
    exceptOk (on_connect_media failCallPlatform
      (AndroidCallContext.new testPlatform (JObjRef.jobject 1)) testJms).2 = false ∧
    exceptOk (on_close_media failCallPlatform
      (AndroidCallContext.new testPlatform (JObjRef.jobject 1))).2 = false ∧
    exceptOk (compare_remotes failCallPlatform (JObjRef.jobject 3)
      (JObjRef.jobject 4)).2 = false ∧
    exceptOk (on_call_concluded failCallPlatform (JObjRef.jobject 3)).2 = false :=
  adapter_ops_surface_boundary_failures failCallPlatform failCallEnv goodOracle testCall
    (JObjRef.jobject 3) (JObjRef.jobject 4) 3 7 CallDirection.OutGoing
    { native_index := 2 } ⟨7, 2⟩ true "sdp" [IceCandidate.mk "a" 0 "x"]
    (AndroidCallContext.new testPlatform (JObjRef.jobject 1)) testJms rfl
    (fun _ _ _ _ => rfl)

end RingRTC

namespace RingRTC

/-- C9: the class cache is populated exactly once, at adapter construction,
with exactly the two host types referenced by name — the call-event
enumeration class and the ICE-candidate class; a resolution failure at
construction is a hard error naming the class; a lookup miss at call time is
a hard error naming the class, never silently ignored; and no adapter
operation modifies the cache afterward: the operations read the platform
immutably, and `try_clone` — through which `create_connection` derives the
platform held by new handles — preserves the cache. -/
theorem class_cache_populated_once (env : EnvModel) (jvm : Jvm) (cm : JObjRef)
    (p q : AndroidPlatform) (name : String) :
    (env.find_class_ok CALL_EVENT_CLASS_PATH = true →
      env.find_class_ok ICE_CANDIDATE_CLASS = true →
      env.get_java_vm_ok = true →
      AndroidPlatform.new env jvm cm =
        .ok { jvm := jvm, jni_call_manager := cm,
              class_cache := { entries := [CALL_EVENT_CLASS_PATH, ICE_CANDIDATE_CLASS] } }) ∧
    (env.find_class_ok CALL_EVENT_CLASS_PATH = false →
      AndroidPlatform.new env jvm cm = .error (.ClassNotFound CALL_EVENT_CLASS_PATH)) ∧
    (env.find_class_ok CALL_EVENT_CLASS_PATH = true →
      env.find_class_ok ICE_CANDIDATE_CLASS = false →
      AndroidPlatform.new env jvm cm = .error (.ClassNotFound ICE_CANDIDATE_CLASS)) ∧
    (p.class_cache.entries.contains name = false →
      p.class_cache.get_class name = .error (.ClassNotFound name)) ∧
    (p.try_clone = .ok q → q.class_cache = p.class_cache) := by
  have e1 : CALL_EVENT_CLASS_PATH = "org/signal/ringrtc/CallManager$CallEvent" := rfl
  refine ⟨?_, ?_, ?_, ?_, ?_⟩
  · intro ha hb hc
    rw [e1] at ha
    simp [AndroidPlatform.new, ClassCache.new, ClassCache.add_class, List.foldlM,
      Except.bind, bind, Except.pure, pure, ha, hb, hc, e1]
  · intro ha
    rw [e1] at ha
    simp [AndroidPlatform.new, ClassCache.new, ClassCache.add_class, List.foldlM,
      Except.bind, bind, ha, e1]
  · intro ha hb
    rw [e1] at ha
    simp [AndroidPlatform.new, ClassCache.new, ClassCache.add_class, List.foldlM,
      Except.bind, bind, ha, hb, e1]
  · intro h
    simp at h
    simp [ClassCache.get_class, h]
  · intro h
    unfold AndroidPlatform.try_clone at h
    cases he : p.java_env with
    | error e =>
      simp only [he] at h
      simp at h
    | ok env2 =>
      simp only [he] at h
      by_cases hg : env2.get_java_vm_ok = true
      · rw [if_pos hg] at h
        cases h
        rfl
      · rw [if_neg hg] at h
        cases h

/-- Witness for C9: construction against a fully resolving host populates
the cache with exactly the two classes; a concrete miss errors; `try_clone`
preserves the concrete cache. -/
theorem class_cache_populated_once_witness :
    (AndroidPlatform.new goodEnv goodJvm (JObjRef.jobject 0) =
      .ok { jvm := goodJvm, jni_call_manager := JObjRef.jobject 0,
            class_cache := { entries := [CALL_EVENT_CLASS_PATH, ICE_CANDIDATE_CLASS] } }) ∧
    testPlatform.class_cache.get_class "missing" = .error (.ClassNotFound "missing") ∧
    testPlatform.class_cache = testPlatform.class_cache :=
  ⟨(class_cache_populated_once goodEnv goodJvm (JObjRef.jobject 0) testPlatform
      testPlatform "missing").1 rfl rfl rfl,
    (class_cache_populated_once goodEnv goodJvm (JObjRef.jobject 0) testPlatform
      testPlatform "missing").2.2.2.1 rfl,
    (class_cache_populated_once goodEnv goodJvm (JObjRef.jobject 0) testPlatform
      testPlatform "missing").2.2.2.2 rfl⟩

end RingRTC
